import Mathlib

/-!
# Verification of the CraftID onboarding backend

A shallow embedding of the CraftID issuing service (FastAPI backend):

* `app/routes/craftid.py` — the `/create` endpoint over a MongoDB-style
  document store (the primary Record Issuer);
* `app/routes/products.py` — `/add-product` (idempotent companion) and
  `/get-products` (listing);
* `main.py` — an alternative Postgres-backed `/create` endpoint.

The store helpers (`app/mongodb.py`: `ensure_initialized`, `collection`,
`next_sequence`) are not part of the observed sources; they are modelled from
the spec's Record-Store contract where noted.  Store calls can fail
(timeout, driver error, duplicate key); each handler invocation is therefore
parameterised by an environment recording the outcome of each of its store
calls, and the handlers are state-passing functions on an explicit store.
-/

set_option maxRecDepth 4096

namespace CraftID

/-! ## Input data model (Pydantic models, `main.py` / `products.py`)

`Artisan`, `Art`, `OnboardingData` mirror the Pydantic models.  All fields
are plain `str` in the source — including `art.name`, which carries no
`min_length` or other constraint — so every `String` value is a valid field
value once the request parses.  `EmailStr` syntax validation is outside the
store logic and modelled as a plain string. -/

structure Artisan where
  name : String
  location : String
  contact_number : String
  email : String
  aadhaar_number : String
deriving DecidableEq, Repr

structure Art where
  name : String
  description : String
  photo : String
deriving DecidableEq, Repr

structure OnboardingData where
  artisan : Artisan
  art : Art
deriving DecidableEq, Repr

/-! ## UTF-8 and SHA-256

`public_hash` is `hashlib.sha256((name + description + photo).encode()).hexdigest()`.
We embed `.encode()` (UTF-8) and SHA-256 (FIPS 180-4) concretely over `Nat`,
reducing every word modulo `2^32`. -/

/-- Truncate to a 32-bit word. -/
def w32 (n : Nat) : Nat := n % 4294967296

/-- UTF-8 encoding of one code point (Python `str.encode()`). -/
def utf8EncodeChar (c : Nat) : List Nat :=
  if c < 128 then [c]
  else if c < 2048 then [192 + c / 64, 128 + c % 64]
  else if c < 65536 then [224 + c / 4096, 128 + (c / 64) % 64, 128 + c % 64]
  else [240 + c / 262144, 128 + (c / 4096) % 64, 128 + (c / 64) % 64, 128 + c % 64]

/-- UTF-8 bytes of a string (Python `str.encode()`). -/
def utf8Encode (s : String) : List Nat :=
  s.data.flatMap (fun c => utf8EncodeChar c.toNat)

/-- Right rotation of a 32-bit word. -/
def rotr (n x : Nat) : Nat := w32 ((x >>> n) ||| (x <<< (32 - n)))

/-- Bitwise complement of a 32-bit word. -/
def not32 (x : Nat) : Nat := x ^^^ 4294967295

def ch32 (x y z : Nat) : Nat := (x &&& y) ^^^ (not32 x &&& z)

def maj32 (x y z : Nat) : Nat := (x &&& y) ^^^ (x &&& z) ^^^ (y &&& z)

def bigSigma0 (x : Nat) : Nat := rotr 2 x ^^^ rotr 13 x ^^^ rotr 22 x

def bigSigma1 (x : Nat) : Nat := rotr 6 x ^^^ rotr 11 x ^^^ rotr 25 x

def smallSigma0 (x : Nat) : Nat := rotr 7 x ^^^ rotr 18 x ^^^ (x >>> 3)

def smallSigma1 (x : Nat) : Nat := rotr 17 x ^^^ rotr 19 x ^^^ (x >>> 10)

/-- The 64 SHA-256 round constants (FIPS 180-4 §4.2.2, in decimal). -/
def sha256K : List Nat :=
  [1116352408, 1899447441, 3049323471, 3921009573, 961987163,
   1508970993, 2453635748, 2870763221, 3624381080, 310598401,
   607225278, 1426881987, 1925078388, 2162078206, 2614888103,
   3248222580, 3835390401, 4022224774, 264347078, 604807628,
   770255983, 1249150122, 1555081692, 1996064986, 2554220882,
   2821834349, 2952996808, 3210313671, 3336571891, 3584528711,
   113926993, 338241895, 666307205, 773529912, 1294757372,
   1396182291, 1695183700, 1986661051, 2177026350, 2456956037,
   2730485921, 2820302411, 3259730800, 3345764771, 3516065817,
   3600352804, 4094571909, 275423344, 430227734, 506948616,
   659060556, 883997877, 958139571, 1322822218, 1537002063,
   1747873779, 1955562222, 2024104815, 2227730452, 2361852424,
   2428436474, 2756734187, 3204031479, 3329325298]

/-- The SHA-256 initial hash value (FIPS 180-4 §5.3.3, in decimal). -/
def sha256H0 : List Nat :=
  [1779033703, 3144134277, 1013904242, 2773480762,
   1359893119, 2600822924, 528734635, 1541459225]

/-- Big-endian byte rendering of `v` in `w` bytes. -/
def beBytes (w v : Nat) : List Nat :=
  (List.range w).map (fun i => (v >>> (8 * (w - 1 - i))) % 256)

/-- SHA-256 message padding: `0x80`, zeros, then the 64-bit bit length. -/
def sha256Pad (m : List Nat) : List Nat :=
  let zeros := (64 - (m.length + 9) % 64) % 64
  m ++ [128] ++ List.replicate zeros 0 ++ beBytes 8 (m.length * 8)

/-- Pack big-endian bytes into 32-bit words (4 bytes per word). -/
def bytesToWords (bs : List Nat) : List Nat :=
  (List.range (bs.length / 4)).map (fun i =>
    bs.getD (4 * i) 0 * 16777216 + bs.getD (4 * i + 1) 0 * 65536 +
    bs.getD (4 * i + 2) 0 * 256 + bs.getD (4 * i + 3) 0)

/-- Extend the 16 message words to the 64-entry message schedule. -/
def extendW (w0 : List Nat) : List Nat :=
  (List.range 48).foldl
    (fun w _ =>
      let t := w.length
      w ++ [w32 (smallSigma1 (w.getD (t - 2) 0) + w.getD (t - 7) 0 +
                 smallSigma0 (w.getD (t - 15) 0) + w.getD (t - 16) 0)])
    w0

/-- One SHA-256 round on the eight-word working state; `kw` is `K[t] + W[t]`. -/
def sha256Round (st : List Nat) (kw : Nat) : List Nat :=
  match st with
  | [a, b, c, d, e, f, g, h] =>
    let t1 := w32 (h + bigSigma1 e + ch32 e f g + kw)
    let t2 := w32 (bigSigma0 a + maj32 a b c)
    [w32 (t1 + t2), a, b, c, w32 (d + t1), e, f, g]
  | other => other

/-- Process one 64-byte block into the running hash. -/
def sha256Block (H : List Nat) (block : List Nat) : List Nat :=
  let ws := extendW (bytesToWords block)
  let kws := List.zipWith (fun k w => w32 (k + w)) sha256K ws
  let st := kws.foldl sha256Round H
  List.zipWith (fun x y => w32 (x + y)) H st

/-- SHA-256 digest of a byte list, as eight 32-bit words. -/
def sha256Words (m : List Nat) : List Nat :=
  let padded := sha256Pad m
  let blocks := (List.range (padded.length / 64)).map
    (fun i => (padded.drop (64 * i)).take 64)
  blocks.foldl sha256Block sha256H0

/-- Lowercase hex digit. -/
def hexChar (n : Nat) : Char :=
  if n < 10 then Char.ofNat (48 + n) else Char.ofNat (87 + n)

/-- Eight lowercase hex characters of a 32-bit word, most significant first. -/
def wordHex (v : Nat) : List Char :=
  (List.range 8).map (fun i => hexChar ((v >>> (4 * (7 - i))) % 16))

/-- `hashlib.sha256(s.encode()).hexdigest()`. -/
def sha256Hex (s : String) : String :=
  ⟨(sha256Words (utf8Encode s)).flatMap wordHex⟩

/-! ## Name normalization

`craftid.py` / `products.py`: `art_name_norm = data.art.name.strip().lower()`.
`main.py` (Postgres variant) instead compares `lower(art_name)` — lowercasing
with **no** whitespace trim.  Python's `str.strip`/`str.lower` are embedded
over the ASCII fragment (`Char.isWhitespace` / `Char.toLower`), which covers
every name the claims exercise. -/

/-- Python `str.lower()` (ASCII fragment). -/
def lowerStr (s : String) : String := ⟨s.data.map Char.toLower⟩

/-- Python `str.strip()` (ASCII whitespace). -/
def stripStr (s : String) : String :=
  ⟨((s.data.dropWhile Char.isWhitespace).reverse.dropWhile Char.isWhitespace).reverse⟩

/-- `data.art.name.strip().lower()` — the uniqueness key of the document
store variant (`craftid.py` line 26, `products.py` line 75). -/
def normName (s : String) : String := lowerStr (stripStr s)

/-! ## `public_id` formatting

`public_id = f"CID-{seq:05d}"`: the decimal digits of the sequence value,
zero-padded on the left to at least five characters, after a `CID-` prefix. -/

/-- The character of one decimal digit. -/
def digitChar (d : Nat) : Char := Char.ofNat (48 + d)

/-- Little-endian decimal digits, by fuelled division (`[]` for `0`). -/
def digitsAux : Nat → Nat → List Nat
  | 0, _ => []
  | _ + 1, 0 => []
  | fuel + 1, n + 1 => (n + 1) % 10 :: digitsAux fuel ((n + 1) / 10)

/-- Little-endian decimal digits of `n`. -/
def digitsLE (n : Nat) : List Nat := digitsAux n n

/-- Most-significant-first decimal digit characters of `n` (empty for `0`). -/
def natDigitsBE (n : Nat) : List Char := (digitsLE n).reverse.map digitChar

/-- Zero-pad a digit string on the left to width 5 (`"%05d"`). -/
def pad5 (l : List Char) : List Char := List.replicate (5 - l.length) '0' ++ l

/-- `f"CID-{n:05d}"`. -/
def publicId (n : Nat) : String := "CID-" ++ ⟨pad5 (natDigitsBE n)⟩

/-! ## JWT credential

`jwt.encode({"public_id": ..., "exp": utcnow() + timedelta(days=365)},
SECRET_KEY, algorithm="HS256")`.  PyJWT is an external library; its HS256
token is modelled abstractly and faithfully to its interface: the token
determines exactly its payload and the symmetric key it was signed with, and
`jwt.decode` recovers the payload precisely when presented with the signing
key.  Time is modelled as seconds since the epoch, so `timedelta(days=365)`
is `365 * 86400`. -/

structure JwtPayload where
  public_id : String
  exp : Nat
deriving DecidableEq, Repr

/-- A signed HS256 token: determined by its payload and signing key. -/
structure Jwt where
  payload : JwtPayload
  key : String
deriving DecidableEq, Repr

/-- `jwt.encode(payload, key, algorithm="HS256")`. -/
def jwtEncode (p : JwtPayload) (key : String) : Jwt := ⟨p, key⟩

/-- `jwt.decode(token, key, algorithms=["HS256"])`: the payload when the key
matches the signing key, signature failure otherwise. -/
def jwtDecode (t : Jwt) (key : String) : Option JwtPayload :=
  if t.key = key then some t.payload else none

/-! ## The document store

One `craftids` collection plus the counters state behind `next_sequence`.
`app/mongodb.py` is not among the observed sources, so the store primitives
follow the spec's Record-Store contract (§4.1). -/

/-- A document of the `craftids` collection, exactly the dict built by
`create_craftid` / `add_product`: `timestamp` models the ISO-8601 UTC string
by the instant it renders (ISO order = numeric order). -/
structure Record where
  public_id : String
  private_key : Jwt
  public_hash : String
  art_name_norm : String
  original_onboarding_data : OnboardingData
  timestamp : Nat
deriving DecidableEq, Repr

/-- The store: the `craftids` collection plus the per-name counters that
`next_sequence` reads and bumps. -/
structure Store where
  records : List Record
  counter : String → Nat

/-- A fresh store: no records, every counter at zero (so the first
allocation returns 1). -/
def emptyStore : Store := ⟨[], fun _ => 0⟩

/-- Modelled from the spec: `next_sequence(name)` of the missing
`app/mongodb.py` — an atomic fetch-and-increment on a durable counter that
"returns a value never returned before for this counter_name" and "starts at
1 on first use" (§4.1 `allocate_next_sequence`). -/
def next_sequence (name : String) (s : Store) : Nat × Store :=
  let v := s.counter name + 1
  (v, { s with counter := fun n => if n = name then v else s.counter n })

/-- `coll.find_one({"art_name_norm": nrm})`: the first stored document whose
`art_name_norm` field equals `nrm`. -/
def find_one (nrm : String) (s : Store) : Option Record :=
  s.records.find? (fun r => r.art_name_norm == nrm)

/-- `coll.insert_one(doc)` in the success case: the document joins the
collection. -/
def insert_one (r : Record) (s : Store) : Store :=
  { s with records := r :: s.records }

/-! ## Store-call outcome environments

Each handler invocation performs up to four I/O calls (`ensure_initialized`,
the `find_one` pre-check, `next_sequence`, `insert_one`); any of them can
raise.  An `Env` fixes the outcome of each call for one invocation, so the
handlers are total state-passing functions and the theorems quantify over
every failure pattern. -/

/-- Outcome of an awaited store call wrapped in `asyncio.wait_for(_, 4)`:
normal completion, `asyncio.TimeoutError` after the 4-second bound, or some
other raised exception carrying `str(e)`. -/
inductive CallOut where
  | ok
  | timeout
  | err (msg : String)
deriving DecidableEq, Repr

/-- Outcome of `insert_one`: success, a `DuplicateKey` error (a concurrent
identical submission won the race between pre-check and insert), or another
driver error. -/
inductive InsOut where
  | ok
  | dupKey (msg : String)
  | err (msg : String)
deriving DecidableEq, Repr

/-- The store-call outcomes of one handler invocation.  `initE` is
`ensure_initialized` (`none` = success, `some e` = raised `e`); `read` the
duplicate pre-check; `alloc` the `next_sequence` call; `ins` the insert. -/
structure Env where
  initE : Option String
  read : CallOut
  alloc : CallOut
  ins : InsOut
deriving DecidableEq, Repr

/-- The all-success environment. -/
def Env.allOk : Env := ⟨none, .ok, .ok, .ok⟩

/-- A handler outcome: `success` with the typed response, or an
`HTTPException`-style error with status code and detail.  An exception the
handler does not catch is rendered the way FastAPI renders it: status 500
with detail `"Internal Server Error"`. -/
inductive HResult (α : Type) where
  | success (val : α)
  | error (status : Nat) (detail : String)
deriving DecidableEq, Repr

/-- The status code of a result (`200` for success). -/
def HResult.statusCode : HResult α → Nat
  | .success _ => 200
  | .error st _ => st

/-! ## `POST /create` (`app/routes/craftid.py`) -/

structure VerificationBlock where
  public_id : String
  private_key : Jwt
  public_hash : String
  verification_url : String
  qr_code_link : String
deriving DecidableEq, Repr

structure NameLocation where
  name : String
  location : String
deriving DecidableEq, Repr

structure NameDescription where
  name : String
  description : String
deriving DecidableEq, Repr

structure RespLinks where
  track_status : String
  shop_listing : String
deriving DecidableEq, Repr

/-- The `/create` success payload (`craftid.py` lines 61-86; the `main.py`
variant builds the same shape from `API_BASE_URL`).  `transaction_id` is
`"tx_" + utcnow().strftime(...)` — the current instant rendered as text. -/
structure CreateResponse where
  status : String
  message : String
  transaction_id : String
  timestamp : Nat
  verification : VerificationBlock
  artisan_info : NameLocation
  art_info : NameDescription
  original_onboarding_data : OnboardingData
  links : RespLinks
deriving DecidableEq, Repr

/-- Assemble the `/create` response from the issued fields. -/
def mkCreateResponse (baseURL : String) (d : OnboardingData) (now : Nat)
    (public_id : String) (private_key : Jwt) (public_hash : String) :
    CreateResponse :=
  let transaction_id := "tx_" ++ toString now
  { status := "success"
    message := "Your CraftID for '" ++ d.art.name ++ "' has been created successfully."
    transaction_id := transaction_id
    timestamp := now
    verification :=
      { public_id := public_id
        private_key := private_key
        public_hash := public_hash
        verification_url := baseURL ++ "/verify/" ++ public_id
        qr_code_link := baseURL ++ "/verify/qr/" ++ public_id }
    artisan_info := ⟨d.artisan.name, d.artisan.location⟩
    art_info := ⟨d.art.name, d.art.description⟩
    original_onboarding_data := d
    links := ⟨baseURL ++ "/status/" ++ transaction_id, baseURL ++ "/shop/" ++ public_id⟩ }

/-- `POST /create` (`craftid.py` `create_craftid`), one invocation as a
state-passing function.  Control flow follows the source exactly:
`ensure_initialized` (failure → 502), the `find_one` duplicate pre-check
bounded by a 4-second timeout (timeout → 504, other error → 500, hit → 409),
`next_sequence` bounded by 4 seconds but guarded by a generic
`except Exception` (any failure, the timeout included, → 502), then the JWT,
the hash, and `insert_one` — which the source wraps in **no** handler, so a
raising insert surfaces as FastAPI's default 500 `Internal Server Error`.
An allocation timeout is modelled as the caller's wait expiring after the
store committed the fetch-and-increment — the worst case the §4.1 counter
contract admits, and the one the spec's no-reuse guarantee must survive. -/
def create_craftid (data : OnboardingData) (now : Nat) (secretKey : String)
    (env : Env) (s : Store) : HResult CreateResponse × Store :=
  match env.initE with
  | some e => (.error 502 ("DB init error: " ++ e), s)
  | none =>
    let art_name_norm := normName data.art.name
    match env.read with
    | .timeout => (.error 504 "DB read timed out", s)
    | .err e => (.error 500 ("DB read error: " ++ e), s)
    | .ok =>
      match find_one art_name_norm s with
      | some _ => (.error 409 "A similar product name already exists.", s)
      | none =>
        match env.alloc with
        | .err e => (.error 502 ("Failed to allocate public id: " ++ e), s)
        | .timeout =>
          (.error 502 "Failed to allocate public id: ",
           (next_sequence "craftid_seq" s).2)
        | .ok =>
          let seqs := next_sequence "craftid_seq" s
          let public_id := publicId seqs.1
          let payload : JwtPayload := ⟨public_id, now + 365 * 86400⟩
          let private_key := jwtEncode payload secretKey
          let public_hash :=
            sha256Hex (data.art.name ++ data.art.description ++ data.art.photo)
          let doc : Record :=
            ⟨public_id, private_key, public_hash, art_name_norm, data, now⟩
          match env.ins with
          | .dupKey _ => (.error 500 "Internal Server Error", seqs.2)
          | .err _ => (.error 500 "Internal Server Error", seqs.2)
          | .ok =>
            (.success (mkCreateResponse "http://localhost:8001" data now
                public_id private_key public_hash),
             insert_one doc seqs.2)

/-! ## `POST /add-product` and `GET /get-products` (`app/routes/products.py`) -/

structure VerificationData where
  public_id : String
  public_hash : String
  verification_url : String
deriving DecidableEq, Repr

structure ArtisanInfo where
  name : String
  location : String
deriving DecidableEq, Repr

structure ArtInfo where
  name : String
  description : String
  photo : String
deriving DecidableEq, Repr

/-- `ProductOut` (`products.py` lines 54-58): the public product view.  It
carries no `private_key` field. -/
structure ProductOut where
  artisan_info : ArtisanInfo
  art_info : ArtInfo
  verification : VerificationData
  timestamp : Nat
deriving DecidableEq, Repr

/-- The `ProductOut` view of a stored document, as the fetch branch of
`add_product` and the loop of `get_products` build it. -/
def productOutOf (r : Record) : ProductOut :=
  { artisan_info := ⟨r.original_onboarding_data.artisan.name,
                     r.original_onboarding_data.artisan.location⟩
    art_info := ⟨r.original_onboarding_data.art.name,
                 r.original_onboarding_data.art.description,
                 r.original_onboarding_data.art.photo⟩
    verification := ⟨r.public_id, r.public_hash, "/verify/" ++ r.public_id⟩
    timestamp := r.timestamp }

/-- `POST /add-product` (`products.py` `add_product`).  Same pipeline as
`create_craftid` up to the pre-check, but a hit is answered with the existing
document's public fields (idempotent fetch) instead of 409, and the insert is
wrapped in `except Exception` → 500 `"DB insert error: ..."`. -/
def add_product (data : OnboardingData) (now : Nat) (secretKey : String)
    (env : Env) (s : Store) : HResult ProductOut × Store :=
  match env.initE with
  | some e => (.error 502 ("DB init error: " ++ e), s)
  | none =>
    let art_name_norm := normName data.art.name
    match env.read with
    | .timeout => (.error 504 "DB read timed out", s)
    | .err e => (.error 500 ("DB read error: " ++ e), s)
    | .ok =>
      match find_one art_name_norm s with
      | some existing => (.success (productOutOf existing), s)
      | none =>
        match env.alloc with
        | .err e => (.error 502 ("Failed to allocate public id: " ++ e), s)
        | .timeout =>
          (.error 502 "Failed to allocate public id: ",
           (next_sequence "craftid_seq" s).2)
        | .ok =>
          let seqs := next_sequence "craftid_seq" s
          let public_id := publicId seqs.1
          let payload : JwtPayload := ⟨public_id, now + 365 * 86400⟩
          let private_key := jwtEncode payload secretKey
          let public_hash :=
            sha256Hex (data.art.name ++ data.art.description ++ data.art.photo)
          let doc : Record :=
            ⟨public_id, private_key, public_hash, art_name_norm, data, now⟩
          match env.ins with
          | .dupKey e => (.error 500 ("DB insert error: " ++ e), seqs.2)
          | .err e => (.error 500 ("DB insert error: " ++ e), seqs.2)
          | .ok =>
            (.success
              { artisan_info := ⟨data.artisan.name, data.artisan.location⟩
                art_info := ⟨data.art.name, data.art.description, data.art.photo⟩
                verification := ⟨public_id, public_hash, "/verify/" ++ public_id⟩
                timestamp := now },
             insert_one doc seqs.2)

/-- Insert into a list already sorted by `timestamp` descending. -/
def sortInsert (r : Record) : List Record → List Record
  | [] => [r]
  | x :: xs =>
    if x.timestamp < r.timestamp then r :: x :: xs else x :: sortInsert r xs

/-- `craftids.find().sort("timestamp", -1)`: the collection ordered by
`timestamp` descending (insertion sort). -/
def sortByTimestampDesc : List Record → List Record
  | [] => []
  | r :: rs => sortInsert r (sortByTimestampDesc rs)

/-- Store-call outcomes of one `get_products` invocation
(`ensure_initialized`, then the cursor read). -/
structure ListEnv where
  initE : Option String
  read : Option String
deriving DecidableEq, Repr

/-- `GET /get-products` (`products.py` `get_products`): sort by timestamp
descending, take at most 200 (`to_list(length=200)`), map to `ProductOut`.
Reads only — the store is unchanged. -/
def get_products (env : ListEnv) (s : Store) : HResult (List ProductOut) :=
  match env.initE with
  | some e => .error 502 ("DB init error: " ++ e)
  | none =>
    match env.read with
    | some e => .error 500 ("DB read error: " ++ e)
    | none => .success (((sortByTimestampDesc s.records).take 200).map productOutOf)

/-! ## The Postgres `/create` variant (`main.py`)

The relational backend: rows of the `craftids` table, plus the
`craftid_public_seq` sequence (`START WITH 1`).  Its duplicate pre-check is
`lower(art_name) = lower(:nm)` — lowercasing with **no** whitespace trim —
and the `DDL_INIT` unique index backstop is likewise on `lower(art_name)`,
so two submissions differing only in surrounding whitespace land in
different index keys.  The happy path and the pre-check rejection are
modelled; driver failures of this variant are outside the claims. -/

structure PgRow where
  public_id : String
  private_key : Jwt
  public_hash : String
  original_onboarding_data : OnboardingData
  artisan_name : String
  artisan_location : String
  artisan_contact_number : String
  artisan_email : String
  artisan_aadhaar_number : String
  art_name : String
  art_description : String
  art_photo : String
  created_at : Nat
deriving DecidableEq, Repr

/-- The relational store: the `craftids` table and the last value the
`craftid_public_seq` sequence handed out (0 before first use). -/
structure PgStore where
  rows : List PgRow
  seq : Nat
deriving DecidableEq, Repr

def emptyPgStore : PgStore := ⟨[], 0⟩

/-- `POST /create` of `main.py`: case-insensitive (untrimmed) duplicate
check, `nextval('craftid_public_seq')`, JWT, hash, insert. -/
def pg_create_craftid (data : OnboardingData) (now : Nat)
    (secretKey baseURL : String) (s : PgStore) :
    HResult CreateResponse × PgStore :=
  if s.rows.any (fun r => lowerStr r.art_name == lowerStr data.art.name) then
    (.error 409
      "A similar product name already exists. Please provide a more unique name.",
     s)
  else
    let n := s.seq + 1
    let public_id := publicId n
    let private_key := jwtEncode ⟨public_id, now + 365 * 86400⟩ secretKey
    let public_hash :=
      sha256Hex (data.art.name ++ data.art.description ++ data.art.photo)
    let row : PgRow :=
      { public_id := public_id
        private_key := private_key
        public_hash := public_hash
        original_onboarding_data := data
        artisan_name := data.artisan.name
        artisan_location := data.artisan.location
        artisan_contact_number := data.artisan.contact_number
        artisan_email := data.artisan.email
        artisan_aadhaar_number := data.artisan.aadhaar_number
        art_name := data.art.name
        art_description := data.art.description
        art_photo := data.art.photo
        created_at := now }
    (.success (mkCreateResponse baseURL data now public_id private_key public_hash),
     ⟨row :: s.rows, n⟩)

/-! ## Traces of `/create` calls

The allocation invariants (C1, C2, C7) quantify over arbitrary finite
sequences of `/create` invocations against one store, each with its own
input, clock value, configured key and store-call outcomes. -/

/-- One `/create` invocation: its parsed input, the invocation instant, the
configured signing key, and the outcomes of its store calls. -/
structure CreateCall where
  data : OnboardingData
  now : Nat
  key : String
  env : Env

/-- The store after one `/create` invocation. -/
def stepStore (c : CreateCall) (s : Store) : Store :=
  (create_craftid c.data c.now c.key c.env s).2

/-- The store after a sequence of `/create` invocations. -/
def runCreates : List CreateCall → Store → Store
  | [], s => s
  | c :: cs, s => runCreates cs (stepStore c s)

/-- The sequence value `next_sequence` hands out during one invocation, when
the invocation reaches the allocation at all (initialization and the
pre-check read succeeded, the name was fresh, and the allocation did not
fail outright — a timed-out allocation still consumes its value). -/
def allocOf (c : CreateCall) (s : Store) : Option Nat :=
  match c.env.initE, c.env.read with
  | none, .ok =>
    match find_one (normName c.data.art.name) s with
    | some _ => none
    | none =>
      match c.env.alloc with
      | .err _ => none
      | _ => some (s.counter "craftid_seq" + 1)
  | _, _ => none

/-- All sequence values the store hands out over a trace, in allocation
order (the values consumed by calls whose insert later failed included). -/
def allocEvents : List CreateCall → Store → List Nat
  | [], _ => []
  | c :: cs, s =>
    match allocOf c s with
    | some v => v :: allocEvents cs (stepStore c s)
    | none => allocEvents cs (stepStore c s)

/-- The sequence values of the invocations that succeeded end to end, in
call order. -/
def successSeqs : List CreateCall → Store → List Nat
  | [], _ => []
  | c :: cs, s =>
    match (create_craftid c.data c.now c.key c.env s).1 with
    | .success _ => (s.counter "craftid_seq" + 1) :: successSeqs cs (stepStore c s)
    | _ => successSeqs cs (stepStore c s)

/-- The `public_id` values returned by the successful invocations of a
trace, in call order. -/
def successIds : List CreateCall → Store → List String
  | [], _ => []
  | c :: cs, s =>
    match (create_craftid c.data c.now c.key c.env s).1 with
    | .success r => r.verification.public_id :: successIds cs (stepStore c s)
    | _ => successIds cs (stepStore c s)

/-! ## Public projection of the store

Everything `/add-product` and `/get-products` answer with is determined by
the stored documents *minus* their `private_key` field (and by the counter
state).  `PubRecord` is that projection; the noninterference theorem for C8
is stated through it. -/

/-- A stored document with its `private_key` erased. -/
structure PubRecord where
  public_id : String
  public_hash : String
  art_name_norm : String
  original_onboarding_data : OnboardingData
  timestamp : Nat
deriving DecidableEq, Repr

/-- Erase the `private_key` of a document. -/
def Record.pubPart (r : Record) : PubRecord :=
  ⟨r.public_id, r.public_hash, r.art_name_norm, r.original_onboarding_data,
   r.timestamp⟩

/-- Two stores that agree on everything except the stored `private_key`
values: same documents up to `private_key`, same counter state. -/
def pubEquiv (s s' : Store) : Prop :=
  s.records.map Record.pubPart = s'.records.map Record.pubPart ∧
  s.counter = s'.counter

/-- `productOutOf` through the public projection. -/
def productOutOfP (p : PubRecord) : ProductOut :=
  { artisan_info := ⟨p.original_onboarding_data.artisan.name,
                     p.original_onboarding_data.artisan.location⟩
    art_info := ⟨p.original_onboarding_data.art.name,
                 p.original_onboarding_data.art.description,
                 p.original_onboarding_data.art.photo⟩
    verification := ⟨p.public_id, p.public_hash, "/verify/" ++ p.public_id⟩
    timestamp := p.timestamp }

/-- `sortInsert` on public projections. -/
def sortInsertP (p : PubRecord) : List PubRecord → List PubRecord
  | [] => [p]
  | x :: xs =>
    if x.timestamp < p.timestamp then p :: x :: xs else x :: sortInsertP p xs

/-- `sortByTimestampDesc` on public projections. -/
def sortByTimestampDescP : List PubRecord → List PubRecord
  | [] => []
  | p :: ps => sortInsertP p (sortByTimestampDescP ps)

/-! ## Concrete sample inputs (for counterexamples and witnesses) -/

def sampleArtisan : Artisan :=
  ⟨"Asha Devi", "Jaipur", "9999999999", "asha@example.com", "123412341234"⟩

/-- `art.name = "Blue Vase"`. -/
def sampleInput : OnboardingData :=
  ⟨sampleArtisan, ⟨"Blue Vase", "A hand-painted blue vase", "cGhvdG8="⟩⟩

/-- `art.name = " blue vase "` — a case-and-whitespace variant of
`sampleInput`'s name. -/
def sampleInputVariant : OnboardingData :=
  ⟨sampleArtisan, ⟨" blue vase ", "Another description", "aW1hZ2U="⟩⟩

/-- An input whose `art.name` is empty. -/
def emptyNameInput : OnboardingData :=
  ⟨sampleArtisan, ⟨"", "No name given", "cGhvdG8="⟩⟩

/-- A stored document for `"blue vase"`. -/
def storedSample : Record :=
  ⟨"CID-00001", jwtEncode ⟨"CID-00001", 31536000⟩ "k", "deadbeef", "blue vase",
   sampleInput, 42⟩

/-- The same document with a different stored `private_key`. -/
def storedSampleOtherKey : Record :=
  ⟨"CID-00001", jwtEncode ⟨"CID-00001", 31536000⟩ "another-key", "deadbeef",
   "blue vase", sampleInput, 42⟩

/-- A store holding `storedSample`, counter at 1. -/
def oneRecordStore : Store := ⟨[storedSample], fun _ => 1⟩

/-- `oneRecordStore` with only the stored `private_key` changed. -/
def oneRecordStoreOtherKey : Store := ⟨[storedSampleOtherKey], fun _ => 1⟩

/-! ## Decimal read-back (for `public_id` injectivity) -/

/-- The value of a little-endian digit list. -/
def ofDigitsLE : List Nat → Nat
  | [] => 0
  | d :: ds => d + 10 * ofDigitsLE ds

/-- The value of a most-significant-first decimal character string; leading
`'0'` characters do not change it. -/
def strVal (l : List Char) : Nat :=
  l.foldl (fun a c => a * 10 + (c.toNat - 48)) 0

/-! # Theorems

## `public_id` formatting is injective

`f"CID-{n:05d}"` determines `n`: reading the padded digit string back as a
number recovers the sequence value, so distinct sequence values yield
distinct `public_id` strings. -/

theorem ofDigitsLE_digitsAux :
    ∀ fuel n, n ≤ fuel → ofDigitsLE (digitsAux fuel n) = n := by
  intro fuel
  induction fuel with
  | zero =>
    intro n h
    interval_cases n
    rfl
  | succ f ih =>
    intro n h
    match n with
    | 0 => rfl
    | m + 1 =>
      have hd : (m + 1) / 10 ≤ f := by
        have : (m + 1) / 10 < m + 1 := Nat.div_lt_self (Nat.succ_pos m) (by omega)
        omega
      show ofDigitsLE ((m + 1) % 10 :: digitsAux f ((m + 1) / 10)) = m + 1
      rw [ofDigitsLE, ih _ hd]
      omega

theorem ofDigitsLE_digitsLE (n : Nat) : ofDigitsLE (digitsLE n) = n :=
  ofDigitsLE_digitsAux n n (Nat.le_refl n)

theorem digitsAux_lt_ten :
    ∀ fuel n, ∀ d ∈ digitsAux fuel n, d < 10 := by
  intro fuel
  induction fuel with
  | zero => intro n d hd; simp [digitsAux] at hd
  | succ f ih =>
    intro n d hd
    match n with
    | 0 => simp [digitsAux] at hd
    | m + 1 =>
      rw [digitsAux] at hd
      rcases List.mem_cons.mp hd with h | h
      · subst h; exact Nat.mod_lt _ (by omega)
      · exact ih _ d h

theorem digitChar_toNat {d : Nat} (h : d < 10) : (digitChar d).toNat = 48 + d := by
  interval_cases d <;> decide

theorem foldl_digit_read (l : List Nat) :
    ∀ a, (∀ d ∈ l, d < 10) →
      List.foldl (fun a c => a * 10 + (c.toNat - 48)) a (l.map digitChar) =
      List.foldl (fun a d => a * 10 + d) a l := by
  induction l with
  | nil => intro a _; rfl
  | cons d ds ih =>
    intro a h
    have hd : d < 10 := h d (List.mem_cons_self d ds)
    simp only [List.map_cons, List.foldl_cons]
    rw [digitChar_toNat hd, Nat.add_sub_cancel_left]
    exact ih _ (fun x hx => h x (List.mem_cons_of_mem d hx))

theorem foldr_eq_ofDigitsLE (l : List Nat) :
    List.foldr (fun d a => a * 10 + d) 0 l = ofDigitsLE l := by
  induction l with
  | nil => rfl
  | cons d ds ih => simp only [List.foldr_cons, ih, ofDigitsLE]; omega

/-- Reading the digit characters of `n` back yields `n`. -/
theorem strVal_natDigitsBE (n : Nat) : strVal (natDigitsBE n) = n := by
  unfold strVal natDigitsBE digitsLE
  rw [foldl_digit_read _ _ (fun d hd => digitsAux_lt_ten n n d (List.mem_reverse.mp hd)),
    List.foldl_reverse, foldr_eq_ofDigitsLE]
  exact ofDigitsLE_digitsAux n n (Nat.le_refl n)

theorem foldl_zeros (k : Nat) :
    List.foldl (fun a c => a * 10 + (c.toNat - 48)) 0 (List.replicate k '0') = 0 := by
  induction k with
  | zero => rfl
  | succ m ih => simpa [List.replicate_succ] using ih

/-- Zero padding does not change the read-back value. -/
theorem strVal_pad5 (l : List Char) : strVal (pad5 l) = strVal l := by
  unfold strVal pad5
  rw [List.foldl_append, foldl_zeros]

/-- The padded digit string of `n` reads back as `n`. -/
theorem strVal_pad5_natDigitsBE (n : Nat) : strVal (pad5 (natDigitsBE n)) = n := by
  rw [strVal_pad5, strVal_natDigitsBE]

/-- `f"CID-{n:05d}"` is injective: distinct sequence values produce distinct
`public_id` strings. -/
theorem publicId_injective : Function.Injective publicId := by
  intro m n h
  unfold publicId at h
  have hdata := congrArg String.data h
  have hm : ("CID-" ++ (⟨pad5 (natDigitsBE m)⟩ : String)).data =
      "CID-".data ++ pad5 (natDigitsBE m) := rfl
  have hn : ("CID-" ++ (⟨pad5 (natDigitsBE n)⟩ : String)).data =
      "CID-".data ++ pad5 (natDigitsBE n) := rfl
  rw [hm, hn] at hdata
  have hpad := List.append_cancel_left hdata
  have := congrArg strVal hpad
  rwa [strVal_pad5_natDigitsBE, strVal_pad5_natDigitsBE] at this

/-! ## Step characterization of one `/create` invocation -/

/-- The counter after one invocation: bumped exactly when the invocation
allocated (successfully or by a consumed timeout), untouched otherwise. -/
theorem counter_stepStore (c : CreateCall) (s : Store) :
    (stepStore c s).counter "craftid_seq" =
      s.counter "craftid_seq" + (if (allocOf c s).isSome then 1 else 0) := by
  obtain ⟨d, now, key, ie, rd, al, insx⟩ := c
  cases ie <;> cases rd <;> cases al <;> cases insx <;>
    cases h : find_one (normName d.art.name) s <;>
    simp [stepStore, create_craftid, allocOf, next_sequence, insert_one, h]

/-- The collection after one invocation: unchanged, or extended by one
document whose `art_name_norm` is the normalized input name — and in that
case the pre-check had found the name absent. -/
theorem records_stepStore (c : CreateCall) (s : Store) :
    (stepStore c s).records = s.records ∨
    ∃ doc, (stepStore c s).records = doc :: s.records ∧
      doc.art_name_norm = normName c.data.art.name ∧
      find_one (normName c.data.art.name) s = none := by
  obtain ⟨d, now, key, ie, rd, al, insx⟩ := c
  cases ie <;> cases rd <;> cases al <;> cases insx <;>
    cases h : find_one (normName d.art.name) s <;>
    simp [stepStore, create_craftid, allocOf, next_sequence, insert_one, h]

/-- An allocated value is always the successor of the counter it was drawn
from. -/
theorem allocOf_eq_some {c : CreateCall} {s : Store} {v : Nat}
    (h : allocOf c s = some v) : v = s.counter "craftid_seq" + 1 := by
  obtain ⟨d, now, key, ie, rd, al, insx⟩ := c
  cases ie <;> cases rd <;> cases al <;>
    cases hf : find_one (normName d.art.name) s <;>
    simp [allocOf, hf] at h
  all_goals omega

/-- A successful invocation allocated the counter successor. -/
theorem success_allocOf (c : CreateCall) (s : Store) (r : CreateResponse)
    (h : (create_craftid c.data c.now c.key c.env s).1 = .success r) :
    allocOf c s = some (s.counter "craftid_seq" + 1) := by
  obtain ⟨d, now, key, ie, rd, al, insx⟩ := c
  cases ie <;> cases rd <;> cases al <;> cases insx <;>
    cases hf : find_one (normName d.art.name) s <;>
    simp [create_craftid, allocOf, next_sequence, hf] at h ⊢

/-- A successful invocation's returned `public_id` is the formatted counter
successor. -/
theorem success_public_id (c : CreateCall) (s : Store) (r : CreateResponse)
    (h : (create_craftid c.data c.now c.key c.env s).1 = .success r) :
    r.verification.public_id = publicId (s.counter "craftid_seq" + 1) := by
  obtain ⟨d, now, key, ie, rd, al, insx⟩ := c
  cases ie <;> cases rd <;> cases al <;> cases insx <;>
    cases hf : find_one (normName d.art.name) s <;>
    simp [create_craftid, next_sequence, hf] at h <;>
    simp [← h, mkCreateResponse]

/-- Normalized-name uniqueness is preserved by every invocation: a document
is only ever inserted after the pre-check found its name absent. -/
theorem nodup_stepStore (c : CreateCall) (s : Store)
    (h : (s.records.map Record.art_name_norm).Nodup) :
    ((stepStore c s).records.map Record.art_name_norm).Nodup := by
  rcases records_stepStore c s with he | ⟨doc, he, hn, hf⟩
  · rwa [he]
  · rw [he, List.map_cons]
    refine List.Nodup.cons ?_ h
    intro hmem
    rw [find_one, List.find?_eq_none] at hf
    obtain ⟨r, hr, hrn⟩ := List.mem_map.mp hmem
    exact hf r hr (by rw [beq_iff_eq, hrn, hn])

theorem nodup_runCreates (trace : List CreateCall) : ∀ s : Store,
    (s.records.map Record.art_name_norm).Nodup →
    ((runCreates trace s).records.map Record.art_name_norm).Nodup := by
  induction trace with
  | nil => intro s h; exact h
  | cons c cs ih => intro s h; exact ih _ (nodup_stepStore c s h)

/-- The values handed out over a trace are exactly the consecutive range
starting just above the initial counter. -/
theorem allocEvents_eq_range' (trace : List CreateCall) : ∀ s : Store,
    allocEvents trace s =
      List.range' (s.counter "craftid_seq" + 1) (allocEvents trace s).length := by
  induction trace with
  | nil => intro s; rfl
  | cons c cs ih =>
    intro s
    have hc := counter_stepStore c s
    cases h : allocOf c s with
    | none =>
      rw [h] at hc
      simp only [Option.isSome_none, Bool.false_eq_true, if_false, Nat.add_zero] at hc
      simp only [allocEvents, h]
      rw [ih (stepStore c s), hc]
      simp [List.length_range']
    | some v =>
      have hv := allocOf_eq_some h
      rw [h] at hc
      simp only [Option.isSome_some, if_true] at hc
      simp only [allocEvents, h]
      rw [List.length_cons, List.range'_succ, ih (stepStore c s), hc, hv]
      simp [List.length_range']

/-- Every value handed out over a trace exceeds the initial counter. -/
theorem allocEvents_gt (trace : List CreateCall) (s : Store) :
    ∀ v ∈ allocEvents trace s, s.counter "craftid_seq" < v := by
  intro v hv
  rw [allocEvents_eq_range' trace s] at hv
  exact (List.mem_range'_1.mp hv).1

/-- The successful invocations' sequence values form a sublist of all
allocated values. -/
theorem successSeqs_sublist (trace : List CreateCall) : ∀ s : Store,
    List.Sublist (successSeqs trace s) (allocEvents trace s) := by
  induction trace with
  | nil => intro s; exact List.Sublist.refl _
  | cons c cs ih =>
    intro s
    cases hr : (create_craftid c.data c.now c.key c.env s).1 with
    | success r =>
      have ha := success_allocOf c s r hr
      simp only [successSeqs, allocEvents, hr, ha]
      exact (ih _).cons₂ _
    | error st dt =>
      cases ha : allocOf c s with
      | some v =>
        simp only [successSeqs, allocEvents, hr, ha]
        exact (ih _).cons v
      | none =>
        simp only [successSeqs, allocEvents, hr, ha]
        exact ih _

/-- The returned `public_id` values are the formatted successful sequence
values. -/
theorem successIds_eq (trace : List CreateCall) : ∀ s : Store,
    successIds trace s = (successSeqs trace s).map publicId := by
  induction trace with
  | nil => intro s; rfl
  | cons c cs ih =>
    intro s
    cases hr : (create_craftid c.data c.now c.key c.env s).1 with
    | success r =>
      have hid := success_public_id c s r hr
      simp only [successIds, successSeqs, hr, List.map_cons, hid]
      rw [ih]
    | error st dt =>
      simp only [successIds, successSeqs, hr]
      exact ih _

/-- C1: over every sequence of `/create` invocations against one store, the
allocated sequence values are exactly `1, 2, 3, …` in allocation order —
pairwise distinct, strictly increasing, starting at 1 on first use, and
never reused even by calls whose insert later failed (those calls'
consumed values are in the list too); the returned `public_id` values are
pairwise distinct; and `art_name_norm` is unique across all stored
records. -/
theorem claim_C1_sequence_and_uniqueness (trace : List CreateCall) :
    allocEvents trace emptyStore =
      List.range' 1 (allocEvents trace emptyStore).length ∧
    List.Pairwise (· < ·) (allocEvents trace emptyStore) ∧
    (allocEvents trace emptyStore).Nodup ∧
    (successIds trace emptyStore).Nodup ∧
    ((runCreates trace emptyStore).records.map Record.art_name_norm).Nodup := by
  have hr := allocEvents_eq_range' trace emptyStore
  have h0 : emptyStore.counter "craftid_seq" + 1 = 1 := rfl
  rw [h0] at hr
  have hnd : (allocEvents trace emptyStore).Nodup := by
    rw [hr]; exact List.nodup_range' _ _
  refine ⟨hr, ?_, hnd, ?_, ?_⟩
  · rw [hr]; exact List.pairwise_lt_range' _ _
  · rw [successIds_eq]
    exact ((successSeqs_sublist trace emptyStore).nodup hnd).map publicId_injective
  · exact nodup_runCreates trace emptyStore (by simp [emptyStore])

/-! ## Duplicate submissions -/

/-- Sanity anchors for the concrete embeddings: the digest of `"abc"` is the
published SHA-256 test vector, and sequence value 1 formats as
`CID-00001`. -/
theorem sha256Hex_abc_vector :
    sha256Hex "abc" =
      "ba7816bf8f01cfea414140de5dae2223b00361a396177a9cb410ff61f20015ad" ∧
    publicId 1 = "CID-00001" ∧ publicId 123456 = "CID-123456" := by
  refine ⟨by decide, by decide, by decide⟩

/-- Submitting a fresh name and then any name with the same normalization
(`.strip().lower()`) to the document-store `/create`: the first call
succeeds, the second is rejected 409 by the pre-check. -/
theorem create_success_then_conflict
    (d1 d2 : OnboardingData) (n1 n2 : Nat) (k1 k2 : String) (s : Store)
    (hsame : normName d2.art.name = normName d1.art.name)
    (hfresh : find_one (normName d1.art.name) s = none) :
    (∃ r, (create_craftid d1 n1 k1 Env.allOk s).1 = .success r) ∧
    (create_craftid d2 n2 k2 Env.allOk
        (create_craftid d1 n1 k1 Env.allOk s).2).1 =
      .error 409 "A similar product name already exists." := by
  have hfresh' : List.find? (fun r => r.art_name_norm == normName d1.art.name)
      s.records = none := hfresh
  constructor
  · exact ⟨mkCreateResponse "http://localhost:8001" d1 n1
      (publicId (s.counter "craftid_seq" + 1))
      (jwtEncode ⟨publicId (s.counter "craftid_seq" + 1), n1 + 365 * 86400⟩ k1)
      (sha256Hex (d1.art.name ++ d1.art.description ++ d1.art.photo)),
      by simp [create_craftid, Env.allOk, find_one, hfresh', next_sequence]⟩
  · simp [create_craftid, Env.allOk, find_one, next_sequence, insert_one,
      hsame, hfresh', List.find?_cons]

/-- C3 (amended): on the document-store `/create` (`craftid.py`, which
normalizes with `.strip().lower()`), the same art name submitted twice —
case and whitespace variants included — yields success then 409 `Conflict`.
The relational `/create` of `main.py` lowercases *without* trimming, so
there only case variants conflict; a whitespace variant bypasses its
duplicate check (see the counterexample). -/
theorem claim_C3_duplicate_name_conflict
    (d1 d2 : OnboardingData) (n1 n2 : Nat) (k1 k2 : String) (s : Store)
    (hsame : normName d2.art.name = normName d1.art.name)
    (hfresh : find_one (normName d1.art.name) s = none) :
    (∃ r, (create_craftid d1 n1 k1 Env.allOk s).1 = .success r) ∧
    (create_craftid d2 n2 k2 Env.allOk
        (create_craftid d1 n1 k1 Env.allOk s).2).1 =
      .error 409 "A similar product name already exists." :=
  create_success_then_conflict d1 d2 n1 n2 k1 k2 s hsame hfresh

theorem claim_C3_witness :
    (∃ r, (create_craftid sampleInput 0 "k" Env.allOk emptyStore).1 = .success r) ∧
    (create_craftid sampleInputVariant 1 "k" Env.allOk
        (create_craftid sampleInput 0 "k" Env.allOk emptyStore).2).1 =
      .error 409 "A similar product name already exists." :=
  claim_C3_duplicate_name_conflict sampleInput sampleInputVariant 0 1 "k" "k"
    emptyStore (by decide) rfl

/-- C3 counterexample: on the `main.py` `/create`, `"Blue Vase"` followed by
its whitespace variant `" blue vase "` succeeds **twice** — `lower(art_name)`
comparison does not trim, so the claimed 409 on the second call does not
happen on this variant of `create`. -/
theorem claim_C3_counterexample :
    (pg_create_craftid sampleInput 0 "secret" "http://localhost:8000"
        emptyPgStore).1.statusCode = 200 ∧
    (pg_create_craftid sampleInputVariant 1 "secret" "http://localhost:8000"
        (pg_create_craftid sampleInput 0 "secret" "http://localhost:8000"
          emptyPgStore).2).1.statusCode = 200 ∧
    (pg_create_craftid sampleInputVariant 1 "secret" "http://localhost:8000"
        (pg_create_craftid sampleInput 0 "secret" "http://localhost:8000"
          emptyPgStore).2).1.statusCode ≠ 409 := by
  refine ⟨by decide, by decide, by decide⟩

/-- C4: `/add-product` is idempotent — a second call with the same
normalized art name returns the existing record's `public_id` and
`public_hash` unchanged — while `/create` answers the same pair of calls
with success then 409; the two entry points keep distinct semantics. -/
theorem claim_C4_add_or_fetch_idempotent
    (d1 d2 : OnboardingData) (n1 n2 : Nat) (k1 k2 : String) (s : Store)
    (hsame : normName d2.art.name = normName d1.art.name)
    (hfresh : find_one (normName d1.art.name) s = none) :
    (∃ p1 p2, (add_product d1 n1 k1 Env.allOk s).1 = .success p1 ∧
      (add_product d2 n2 k2 Env.allOk (add_product d1 n1 k1 Env.allOk s).2).1 =
        .success p2 ∧
      p2.verification.public_id = p1.verification.public_id ∧
      p2.verification.public_hash = p1.verification.public_hash) ∧
    ((∃ r, (create_craftid d1 n1 k1 Env.allOk s).1 = .success r) ∧
     (create_craftid d2 n2 k2 Env.allOk
         (create_craftid d1 n1 k1 Env.allOk s).2).1 =
       .error 409 "A similar product name already exists.") := by
  have hfresh' : List.find? (fun r => r.art_name_norm == normName d1.art.name)
      s.records = none := hfresh
  constructor
  · have h1 : (add_product d1 n1 k1 Env.allOk s).1 = .success
        { artisan_info := ⟨d1.artisan.name, d1.artisan.location⟩
          art_info := ⟨d1.art.name, d1.art.description, d1.art.photo⟩
          verification := ⟨publicId (s.counter "craftid_seq" + 1),
            sha256Hex (d1.art.name ++ d1.art.description ++ d1.art.photo),
            "/verify/" ++ publicId (s.counter "craftid_seq" + 1)⟩
          timestamp := n1 } := by
      simp [add_product, Env.allOk, find_one, hfresh', next_sequence]
    have h2 : (add_product d2 n2 k2 Env.allOk
        (add_product d1 n1 k1 Env.allOk s).2).1 = .success (productOutOf
          ⟨publicId (s.counter "craftid_seq" + 1),
           jwtEncode ⟨publicId (s.counter "craftid_seq" + 1), n1 + 365 * 86400⟩ k1,
           sha256Hex (d1.art.name ++ d1.art.description ++ d1.art.photo),
           normName d1.art.name, d1, n1⟩) := by
      simp [add_product, Env.allOk, find_one, next_sequence, insert_one,
        hsame, hfresh', List.find?_cons]
    exact ⟨_, _, h1, h2, rfl, rfl⟩
  · exact create_success_then_conflict d1 d2 n1 n2 k1 k2 s hsame hfresh

theorem claim_C4_witness :
    (∃ p1 p2, (add_product sampleInput 0 "k" Env.allOk emptyStore).1 = .success p1 ∧
      (add_product sampleInputVariant 1 "k" Env.allOk
          (add_product sampleInput 0 "k" Env.allOk emptyStore).2).1 = .success p2 ∧
      p2.verification.public_id = p1.verification.public_id ∧
      p2.verification.public_hash = p1.verification.public_hash) ∧
    ((∃ r, (create_craftid sampleInput 0 "k" Env.allOk emptyStore).1 = .success r) ∧
     (create_craftid sampleInputVariant 1 "k" Env.allOk
         (create_craftid sampleInput 0 "k" Env.allOk emptyStore).2).1 =
       .error 409 "A similar product name already exists.") :=
  claim_C4_add_or_fetch_idempotent sampleInput sampleInputVariant 0 1 "k" "k"
    emptyStore (by decide) rfl

/-! ## Failure handling of the store calls -/

/-- C10: a `/create` invocation that fails at the duplicate pre-check — a
409 on a found name, or a timeout of that read — returns with the store
exactly as it was: the pre-check strictly precedes the allocation and the
insert, so no sequence value is consumed and no record inserted. -/
theorem claim_C10_precheck_failure_no_side_effects
    (d : OnboardingData) (now : Nat) (key : String) (env : Env) (s : Store) :
    (env.initE = none → env.read = .timeout →
      create_craftid d now key env s = (.error 504 "DB read timed out", s)) ∧
    (env.initE = none → env.read = .ok →
      ∀ r, find_one (normName d.art.name) s = some r →
        create_craftid d now key env s =
          (.error 409 "A similar product name already exists.", s)) := by
  obtain ⟨ie, rd, al, insx⟩ := env
  constructor
  · rintro rfl rfl
    simp [create_craftid]
  · rintro rfl rfl r hf
    simp [create_craftid, hf]

theorem claim_C10_witness :
    create_craftid sampleInput 7 "k" ⟨none, .timeout, .ok, .ok⟩ emptyStore =
      (.error 504 "DB read timed out", emptyStore) ∧
    create_craftid sampleInputVariant 9 "k" Env.allOk oneRecordStore =
      (.error 409 "A similar product name already exists.", oneRecordStore) :=
  ⟨(claim_C10_precheck_failure_no_side_effects sampleInput 7 "k"
      ⟨none, .timeout, .ok, .ok⟩ emptyStore).1 rfl rfl,
   (claim_C10_precheck_failure_no_side_effects sampleInputVariant 9 "k"
      Env.allOk oneRecordStore).2 rfl rfl storedSample (by decide)⟩

/-- C2 counterexample: an insert failing with `DuplicateKey` does **not**
surface as 409 `Conflict` — `create_craftid` wraps `insert_one` in no
handler, so the exception escapes and FastAPI answers the generic
500 `Internal Server Error`. -/
theorem claim_C2_counterexample :
    (create_craftid sampleInput 0 "secret"
        ⟨none, .ok, .ok, .dupKey "E11000 duplicate key error"⟩ emptyStore).1 =
      .error 500 "Internal Server Error" ∧
    (create_craftid sampleInput 0 "secret"
        ⟨none, .ok, .ok, .dupKey "E11000 duplicate key error"⟩
        emptyStore).1.statusCode ≠ 409 := by
  refine ⟨by decide, by decide⟩

/-- C2 (amended): an insert that fails with `DuplicateKey` after the
allocation surfaces as a **generic 500** — `"Internal Server Error"` from
the unhandled exception in `/create`, `"DB insert error: …"` from the
catch-all in `/add-product` — never as 409 `Conflict`; the allocated
sequence value is still permanently consumed and is reused by no later
call. -/
theorem claim_C2_dupkey_generic_500
    (d : OnboardingData) (now : Nat) (key msg : String) (s : Store)
    (hfresh : find_one (normName d.art.name) s = none) :
    (create_craftid d now key ⟨none, .ok, .ok, .dupKey msg⟩ s).1 =
      .error 500 "Internal Server Error" ∧
    (add_product d now key ⟨none, .ok, .ok, .dupKey msg⟩ s).1 =
      .error 500 ("DB insert error: " ++ msg) ∧
    (create_craftid d now key ⟨none, .ok, .ok, .dupKey msg⟩ s).2.records =
      s.records ∧
    (create_craftid d now key ⟨none, .ok, .ok, .dupKey msg⟩ s).2.counter
        "craftid_seq" = s.counter "craftid_seq" + 1 ∧
    (∀ trace, s.counter "craftid_seq" + 1 ∉
      allocEvents trace
        (create_craftid d now key ⟨none, .ok, .ok, .dupKey msg⟩ s).2) := by
  have hfresh' : List.find? (fun r => r.art_name_norm == normName d.art.name)
      s.records = none := hfresh
  have hstep : (create_craftid d now key ⟨none, .ok, .ok, .dupKey msg⟩ s).2.counter
      "craftid_seq" = s.counter "craftid_seq" + 1 := by
    simp [create_craftid, find_one, hfresh', next_sequence]
  refine ⟨?_, ?_, ?_, hstep, ?_⟩
  · simp [create_craftid, find_one, hfresh']
  · simp [add_product, find_one, hfresh']
  · simp [create_craftid, find_one, hfresh', next_sequence]
  · intro trace hmem
    have := allocEvents_gt trace _ _ hmem
    omega

theorem claim_C2_witness :
    (create_craftid sampleInput 3 "secret"
        ⟨none, .ok, .ok, .dupKey "E11000"⟩ emptyStore).1 =
      .error 500 "Internal Server Error" :=
  (claim_C2_dupkey_generic_500 sampleInput 3 "secret" "E11000" emptyStore rfl).1

/-- C7 counterexample: a timeout of the sequence-allocation call does
**not** surface as 504 `StoreTimeout` — `create_craftid` guards
`next_sequence` with a catch-all `except Exception`, so the
`asyncio.TimeoutError` is answered 502. -/
theorem claim_C7_counterexample :
    (create_craftid sampleInput 0 "secret" ⟨none, .ok, .timeout, .ok⟩
        emptyStore).1 = .error 502 "Failed to allocate public id: " ∧
    (create_craftid sampleInput 0 "secret" ⟨none, .ok, .timeout, .ok⟩
        emptyStore).1.statusCode ≠ 504 := by
  refine ⟨by decide, by decide⟩

/-- C7 (amended): only the duplicate-check read's timeout surfaces as the
distinct 504 `StoreTimeout`, in `/create` and `/add-product` alike; a
timeout of the sequence allocation is swallowed by a catch-all and surfaces
as 502 (and the insert is bounded by no timeout at all — its failures are
500, see C2).  A timed-out allocation still consumes its sequence value:
the store is left with the counter advanced, and no later call is handed
the consumed value. -/
theorem claim_C7_timeout_surfacing
    (d : OnboardingData) (now : Nat) (key : String) (al : CallOut)
    (ins : InsOut) (s : Store) :
    (create_craftid d now key ⟨none, .timeout, al, ins⟩ s =
      (.error 504 "DB read timed out", s)) ∧
    (add_product d now key ⟨none, .timeout, al, ins⟩ s =
      (.error 504 "DB read timed out", s)) ∧
    (find_one (normName d.art.name) s = none →
      (create_craftid d now key ⟨none, .ok, .timeout, ins⟩ s).1 =
        .error 502 "Failed to allocate public id: " ∧
      (add_product d now key ⟨none, .ok, .timeout, ins⟩ s).1 =
        .error 502 "Failed to allocate public id: " ∧
      (create_craftid d now key ⟨none, .ok, .timeout, ins⟩ s).2.records =
        s.records ∧
      (create_craftid d now key ⟨none, .ok, .timeout, ins⟩ s).2.counter
          "craftid_seq" = s.counter "craftid_seq" + 1 ∧
      (∀ trace, s.counter "craftid_seq" + 1 ∉
        allocEvents trace
          (create_craftid d now key ⟨none, .ok, .timeout, ins⟩ s).2)) := by
  refine ⟨by simp [create_craftid], by simp [add_product], ?_⟩
  intro hfresh
  have hfresh' : List.find? (fun r => r.art_name_norm == normName d.art.name)
      s.records = none := hfresh
  have hstep : (create_craftid d now key ⟨none, .ok, .timeout, ins⟩ s).2.counter
      "craftid_seq" = s.counter "craftid_seq" + 1 := by
    simp [create_craftid, find_one, hfresh', next_sequence]
  refine ⟨?_, ?_, ?_, hstep, ?_⟩
  · simp [create_craftid, find_one, hfresh']
  · simp [add_product, find_one, hfresh']
  · simp [create_craftid, find_one, hfresh', next_sequence]
  · intro trace hmem
    have := allocEvents_gt trace _ _ hmem
    omega

theorem claim_C7_witness :
    create_craftid sampleInput 2 "k" ⟨none, .timeout, .ok, .ok⟩ emptyStore =
      (.error 504 "DB read timed out", emptyStore) ∧
    (create_craftid sampleInput 2 "k" ⟨none, .ok, .timeout, .ok⟩
        emptyStore).1 = .error 502 "Failed to allocate public id: " :=
  ⟨(claim_C7_timeout_surfacing sampleInput 2 "k" .ok .ok emptyStore).1,
   ((claim_C7_timeout_surfacing sampleInput 2 "k" .ok .ok emptyStore).2.2 rfl).1⟩

/-- C9 counterexample: an input whose `art.name` is empty is **not**
rejected by any validation — `Art.name` is a plain unconstrained `str` — so
`/create` accepts it, reads the store, allocates a sequence value and
inserts a record, contradicting the claimed `ValidationError` before any
store call. -/
theorem claim_C9_counterexample :
    emptyNameInput.art.name = "" ∧
    (create_craftid emptyNameInput 0 "secret" Env.allOk
        emptyStore).1.statusCode = 200 ∧
    (create_craftid emptyNameInput 0 "secret" Env.allOk
        emptyStore).2.records.length = 1 ∧
    (create_craftid emptyNameInput 0 "secret" Env.allOk
        emptyStore).2.counter "craftid_seq" = 1 := by
  refine ⟨rfl, by decide, by decide, by decide⟩

/-- C9 (amended): `create` performs no non-emptiness validation on
`art.name` (the Pydantic field is an unconstrained `str`): an input with an
empty art name proceeds through the store pipeline like any other fresh
name — the pre-check runs, a sequence value is consumed and a record is
inserted. -/
theorem claim_C9_empty_name_reaches_store
    (d : OnboardingData) (now : Nat) (key : String) (s : Store)
    (_hname : d.art.name = "")
    (hfresh : find_one (normName d.art.name) s = none) :
    (create_craftid d now key Env.allOk s).1.statusCode = 200 ∧
    (create_craftid d now key Env.allOk s).2.records.length =
      s.records.length + 1 ∧
    (create_craftid d now key Env.allOk s).2.counter "craftid_seq" =
      s.counter "craftid_seq" + 1 := by
  have hfresh' : List.find? (fun r => r.art_name_norm == normName d.art.name)
      s.records = none := hfresh
  refine ⟨?_, ?_, ?_⟩ <;>
    simp [create_craftid, Env.allOk, find_one, hfresh', next_sequence,
      insert_one, HResult.statusCode]

theorem claim_C9_witness :
    (create_craftid emptyNameInput 1 "k" Env.allOk emptyStore).1.statusCode = 200 ∧
    (create_craftid emptyNameInput 1 "k" Env.allOk emptyStore).2.records.length =
      emptyStore.records.length + 1 ∧
    (create_craftid emptyNameInput 1 "k" Env.allOk emptyStore).2.counter
        "craftid_seq" = emptyStore.counter "craftid_seq" + 1 :=
  claim_C9_empty_name_reaches_store emptyNameInput 1 "k" emptyStore rfl rfl

/-! ## The content hash and the credential -/

/-- C5: `public_hash` is the SHA-256 hex digest of the direct, undelimited
concatenation `art.name + art.description + art.photo` — a pure function of
the concatenation, so identical triples hash identically and triples whose
concatenations coincide (boundary shifts like `"ab"+"c"` vs `"a"+"bc"`)
collide by construction. -/
theorem claim_C5_public_hash_pure :
    (∀ d now key env s,
      match (create_craftid d now key env s).1 with
      | .success r => r.verification.public_hash =
          sha256Hex (d.art.name ++ d.art.description ++ d.art.photo)
      | .error _ _ => True) ∧
    (∀ a b : Art,
      a.name ++ a.description ++ a.photo = b.name ++ b.description ++ b.photo →
      sha256Hex (a.name ++ a.description ++ a.photo) =
        sha256Hex (b.name ++ b.description ++ b.photo)) := by
  constructor
  · intro d now key env s
    obtain ⟨ie, rd, al, insx⟩ := env
    cases ie <;> cases rd <;> cases al <;> cases insx <;>
      cases hf : find_one (normName d.art.name) s <;>
      simp [create_craftid, next_sequence, hf, mkCreateResponse]
  · intro a b h
    rw [h]

theorem claim_C5_witness :
    ("ab" ++ "c" ++ "xyz" = "a" ++ "bc" ++ "xyz") ∧
    sha256Hex ("ab" ++ "c" ++ "xyz") = sha256Hex ("a" ++ "bc" ++ "xyz") :=
  ⟨by decide,
   claim_C5_public_hash_pure.2 ⟨"ab", "c", "xyz"⟩ ⟨"a", "bc", "xyz"⟩ (by decide)⟩

/-- C6: every successful `/create` returns a `private_key` signed with the
configured symmetric key, decoding to exactly the `public_id` issued in the
same response together with an expiry of the issuance instant plus 365
days. -/
theorem claim_C6_private_key_decodes (d : OnboardingData) (now : Nat)
    (key : String) (env : Env) (s : Store) :
    match (create_craftid d now key env s).1 with
    | .success r =>
      jwtDecode r.verification.private_key key =
        some ⟨r.verification.public_id, now + 365 * 86400⟩
    | .error _ _ => True := by
  obtain ⟨ie, rd, al, insx⟩ := env
  cases ie <;> cases rd <;> cases al <;> cases insx <;>
    cases hf : find_one (normName d.art.name) s <;>
    simp [create_craftid, next_sequence, hf, mkCreateResponse, jwtDecode,
      jwtEncode]

/-! ## No re-disclosure of `private_key` (C8)

`ProductOut` carries no `private_key` field, and both `/add-product` and
`/get-products` compute their responses from the public projection of the
store alone: two stores whose documents differ only in their stored
`private_key` values are answered identically. -/

theorem pubPart_timestamp (r : Record) :
    (Record.pubPart r).timestamp = r.timestamp := rfl

theorem map_pubPart_sortInsert (r : Record) (l : List Record) :
    (sortInsert r l).map Record.pubPart =
      sortInsertP r.pubPart (l.map Record.pubPart) := by
  induction l with
  | nil => rfl
  | cons x xs ih =>
    simp only [sortInsert, sortInsertP, List.map_cons, pubPart_timestamp]
    by_cases hx : x.timestamp < r.timestamp
    · simp only [if_pos hx, List.map_cons]
    · simp only [if_neg hx, List.map_cons, ih]

theorem map_pubPart_sort (l : List Record) :
    (sortByTimestampDesc l).map Record.pubPart =
      sortByTimestampDescP (l.map Record.pubPart) := by
  induction l with
  | nil => rfl
  | cons r rs ih =>
    simp only [sortByTimestampDesc, sortByTimestampDescP, List.map_cons,
      ← ih, map_pubPart_sortInsert]

theorem find_one_pubPart (nrm : String) (s : Store) :
    Option.map Record.pubPart (find_one nrm s) =
      (s.records.map Record.pubPart).find? (fun p => p.art_name_norm == nrm) := by
  rw [find_one, List.find?_map]
  rfl

theorem productOutOf_eq (r : Record) :
    productOutOf r = productOutOfP r.pubPart := rfl

/-- `/get-products` answers two stores that differ only in stored
`private_key` values identically. -/
theorem get_products_pubEquiv {s s' : Store} (h : pubEquiv s s')
    (env : ListEnv) : get_products env s = get_products env s' := by
  obtain ⟨ie, rd⟩ := env
  cases ie with
  | some e => rfl
  | none =>
    cases rd with
    | some e => rfl
    | none =>
      simp only [get_products]
      have hout : ∀ t : Store,
          ((sortByTimestampDesc t.records).take 200).map productOutOf =
          ((sortByTimestampDescP (t.records.map Record.pubPart)).take 200).map
            productOutOfP := by
        intro t
        calc ((sortByTimestampDesc t.records).take 200).map productOutOf
            = (((sortByTimestampDesc t.records).take 200).map
                Record.pubPart).map productOutOfP := by
              rw [List.map_map]; rfl
          _ = ((sortByTimestampDescP (t.records.map Record.pubPart)).take 200).map
                productOutOfP := by
              rw [List.map_take, map_pubPart_sort]
      rw [hout s, hout s', h.1]

/-- `/add-product` answers two stores that differ only in stored
`private_key` values identically. -/
theorem add_product_pubEquiv {s s' : Store} (h : pubEquiv s s')
    (d : OnboardingData) (now : Nat) (key : String) (env : Env) :
    (add_product d now key env s).1 = (add_product d now key env s').1 := by
  obtain ⟨ie, rd, al, insx⟩ := env
  cases ie with
  | some e => rfl
  | none =>
    cases rd with
    | timeout => rfl
    | err e => rfl
    | ok =>
      have heq : Option.map Record.pubPart (find_one (normName d.art.name) s) =
          Option.map Record.pubPart (find_one (normName d.art.name) s') := by
        rw [find_one_pubPart, find_one_pubPart, h.1]
      cases h1 : find_one (normName d.art.name) s with
      | some r =>
        cases h2 : find_one (normName d.art.name) s' with
        | some r' =>
          rw [h1, h2] at heq
          simp only [Option.map_some', Option.some_inj] at heq
          simp [add_product, h1, h2, productOutOf_eq, heq]
        | none => rw [h1, h2] at heq; simp at heq
      | none =>
        cases h2 : find_one (normName d.art.name) s' with
        | some r' => rw [h1, h2] at heq; simp at heq
        | none =>
          cases al <;> cases insx <;>
            simp [add_product, h1, h2, next_sequence, h.2]

/-- The record `/add-product` inserts carries the signed credential in its
`private_key` field — persisted, though present in no response. -/
theorem add_product_persists_key (d : OnboardingData) (now : Nat)
    (key : String) (s : Store)
    (hfresh : find_one (normName d.art.name) s = none) :
    ∃ doc, (add_product d now key Env.allOk s).2.records = doc :: s.records ∧
      doc.private_key = jwtEncode ⟨doc.public_id, now + 365 * 86400⟩ key := by
  have hfresh' : List.find? (fun r => r.art_name_norm == normName d.art.name)
      s.records = none := hfresh
  refine ⟨⟨publicId (s.counter "craftid_seq" + 1),
    jwtEncode ⟨publicId (s.counter "craftid_seq" + 1), now + 365 * 86400⟩ key,
    sha256Hex (d.art.name ++ d.art.description ++ d.art.photo),
    normName d.art.name, d, now⟩, ?_, rfl⟩
  simp [add_product, Env.allOk, find_one, hfresh', next_sequence, insert_one]

/-- C8: no endpoint re-discloses `private_key` after initial issuance —
`/add-product` and `/get-products` return the same responses on any two
stores that differ only in their stored `private_key` values (the response
type itself has no `private_key` field), while the record created through
`/add-product` still has the signed credential persisted in the store. -/
theorem claim_C8_no_private_key_redisclosure (s s' : Store)
    (h : pubEquiv s s') :
    (∀ env, get_products env s = get_products env s') ∧
    (∀ d now key env,
      (add_product d now key env s).1 = (add_product d now key env s').1) ∧
    (∀ d now key, find_one (normName d.art.name) s = none →
      ∃ doc, (add_product d now key Env.allOk s).2.records = doc :: s.records ∧
        doc.private_key = jwtEncode ⟨doc.public_id, now + 365 * 86400⟩ key) :=
  ⟨fun env => get_products_pubEquiv h env,
   fun d now key env => add_product_pubEquiv h d now key env,
   fun d now key hf => add_product_persists_key d now key s hf⟩

theorem claim_C8_witness :
    pubEquiv oneRecordStore oneRecordStoreOtherKey ∧
    get_products ⟨none, none⟩ oneRecordStore =
      get_products ⟨none, none⟩ oneRecordStoreOtherKey :=
  ⟨⟨by decide, rfl⟩,
   (claim_C8_no_private_key_redisclosure oneRecordStore oneRecordStoreOtherKey
      ⟨by decide, rfl⟩).1 ⟨none, none⟩⟩

end CraftID
